import Mathlib

/-!
# Vulkan-Grass-Rendering: `ShaderModule` and `Device`

A shallow embedding of `src/ShaderModule.cpp` (the file reader `readFile` and the
two `ShaderModule::Create` overloads) and of the `Device` class declared in
`src/Device.h`.

* The file system is a lookup from a path to the content of a regular file; the
  lookup fails when the file cannot be opened.
* `std::ifstream` is modelled as a small record (open flag, content, get
  position, fail and eof bits) with the four operations `readFile` uses.
* The Vulkan driver is a deterministic responder: its answer to a
  `vkCreateShaderModule` call may depend on every earlier call.  The calls made
  so far are kept in a log, which is threaded through the code as explicit state.
* C++ exceptions (`std::runtime_error`) are `Except String`, the string being
  the message of the exception.
-/

namespace VulkanGrass

/-! ## Bytes, files and `std::ifstream` -/

/-- One `char` of a `std::vector<char>`. -/
abbrev Byte := Fin 256

/-- Content of a regular file.  Stream offsets (`std::streamoff`) are signed
64-bit integers, so a file that a stream can size has fewer than `2^63` bytes. -/
structure FileData where
  bytes : List Byte
  size_ok : bytes.length < 2 ^ 63

/-- The file system: the content of the file behind a path, or `none` when the
path cannot be opened (missing file, permission denied). -/
abbrev FileSystem := String → Option FileData

/-- State of a `std::ifstream`. -/
structure IfStream where
  is_open : Bool
  content : List Byte
  pos : Nat
  failbit : Bool
  eofbit : Bool
deriving DecidableEq

/-- The constructor `std::ifstream file(filename, mode)`; `ate` says whether `std::ios::ate` is
in the mode, which puts the get position at the end right after opening.  A
failed open leaves the stream closed with `failbit` set. -/
def IfStream.ifstream (fs : FileSystem) (filename : String) (ate : Bool) : IfStream :=
  match fs filename with
  | none => { is_open := false, content := [], pos := 0, failbit := true, eofbit := false }
  | some f =>
    { is_open := true, content := f.bytes, pos := if ate then f.bytes.length else 0,
      failbit := false, eofbit := false }

/-- The call `file.tellg()`: the get position, or `-1` when the stream has failed. -/
def IfStream.tellg (s : IfStream) : Int :=
  if s.failbit then -1 else (s.pos : Int)

/-- The call `file.seekg(p)`: clears `eofbit`, then moves the get position unless the
stream has failed. -/
def IfStream.seekg (s : IfStream) (p : Nat) : IfStream :=
  if s.failbit then { s with eofbit := false } else { s with eofbit := false, pos := p }

/-- The call `file.read(buffer.data(), n)`: copies up to `n` bytes from the get position
to the front of `buffer`; when fewer than `n` bytes are left, what is left is
copied and `failbit` and `eofbit` are set.  A stream that is not good reads
nothing and sets `failbit`. -/
def IfStream.read (s : IfStream) (buffer : List Byte) (n : Nat) : IfStream × List Byte :=
  if s.failbit || s.eofbit then ({ s with failbit := true }, buffer)
  else
    let got := (s.content.drop s.pos).take n
    let s1 := { s with pos := s.pos + got.length }
    let s2 := if got.length < n then { s1 with failbit := true, eofbit := true } else s1
    (s2, got ++ buffer.drop got.length)

/-- The call `file.close()`. -/
def IfStream.close (s : IfStream) : IfStream :=
  { s with is_open := false }

/-- The cast `(size_t)` of a stream position on a 64-bit target. -/
def toSizeT (i : Int) : Nat := (i % 2 ^ 64).toNat

/-- The function `readFile` of `ShaderModule.cpp` (lines 6-21). -/
def readFile (fs : FileSystem) (filename : String) : Except String (List Byte) :=
  let file := IfStream.ifstream fs filename true
  if !file.is_open then
    Except.error "Failed to open file"
  else
    let fileSize : Nat := toSizeT file.tellg
    let buffer : List Byte := List.replicate fileSize 0
    let file := file.seekg 0
    let (file, buffer) := file.read buffer fileSize
    let _file := file.close
    Except.ok buffer

/-! ## The Vulkan driver -/

/-- The type `VkDevice`: an opaque handle. -/
abbrev VkDevice := Nat

/-- The type `VkShaderModule`: an opaque handle. -/
abbrev VkShaderModule := Nat

/-- The type `VkResult`: a 32-bit signed status code. -/
abbrev VkResult := Int

/-- The status `VK_SUCCESS` of `vulkan_core.h`. -/
def VK_SUCCESS : VkResult := 0

/-- The constant `VK_STRUCTURE_TYPE_SHADER_MODULE_CREATE_INFO` of `vulkan_core.h`. -/
def VK_STRUCTURE_TYPE_SHADER_MODULE_CREATE_INFO : Nat := 16

/-- The record `VkShaderModuleCreateInfo`.  A pointer is `none` when null; `pCode` is
modelled by the bytes it points to. -/
structure VkShaderModuleCreateInfo where
  sType : Nat
  pNext : Option Nat
  flags : Nat
  codeSize : Nat
  pCode : Option (List Byte)
deriving DecidableEq

/-- The value of `VkShaderModuleCreateInfo createInfo = {}`: every field zero
or null. -/
def VkShaderModuleCreateInfo.zeroed : VkShaderModuleCreateInfo :=
  { sType := 0, pNext := none, flags := 0, codeSize := 0, pCode := none }

/-- The arguments of one `vkCreateShaderModule` call (the out-parameter apart). -/
structure CreateShaderModuleCall where
  device : VkDevice
  pCreateInfo : VkShaderModuleCreateInfo
  pAllocator : Option Nat
deriving DecidableEq

/-- The driver: given the calls made before and the present call, the status it
returns and the handle it writes through the out-parameter. -/
structure Driver where
  vkCreateShaderModule :
    List CreateShaderModuleCall → CreateShaderModuleCall → VkResult × VkShaderModule

/-! ## `ShaderModule::Create` -/

/-- The overload
`ShaderModule::Create(const std::vector<char>& code, VkDevice logicalDevice)` of `ShaderModule.cpp` (lines 25-39).  `log` holds the driver calls made so far;
the result comes with the log after the call. -/
def ShaderModule.Create (drv : Driver) (code : List Byte) (logicalDevice : VkDevice)
    (log : List CreateShaderModuleCall) :
    Except String VkShaderModule × List CreateShaderModuleCall :=
  let createInfo : VkShaderModuleCreateInfo :=
    { VkShaderModuleCreateInfo.zeroed with
      sType := VK_STRUCTURE_TYPE_SHADER_MODULE_CREATE_INFO
      codeSize := code.length
      pCode := some code }
  let call : CreateShaderModuleCall :=
    { device := logicalDevice, pCreateInfo := createInfo, pAllocator := none }
  let (status, shaderModule) := drv.vkCreateShaderModule log call
  if status ≠ VK_SUCCESS then
    (Except.error "Failed to create shader module", log ++ [call])
  else
    (Except.ok shaderModule, log ++ [call])

/-- The overload
`ShaderModule::Create(const std::string& filename, VkDevice logicalDevice)` of `ShaderModule.cpp` (lines 41-44): the exception of `readFile` propagates
before the other overload is entered. -/
def ShaderModule.CreateFile (drv : Driver) (fs : FileSystem) (filename : String)
    (logicalDevice : VkDevice) (log : List CreateShaderModuleCall) :
    Except String VkShaderModule × List CreateShaderModuleCall :=
  match readFile fs filename with
  | Except.error e => (Except.error e, log)
  | Except.ok code => ShaderModule.Create drv code logicalDevice log

/-! ## Sample inputs -/

/-- A four-byte file (the SPIR-V magic number, little endian). -/
def sampleFile : FileData := { bytes := [3, 2, 35, 7], size_ok := by decide }

/-- A file system holding `sampleFile` at `shader.spv` and nothing else. -/
def sampleFs : FileSystem := fun name =>
  if name = "shader.spv" then some sampleFile else none

/-- A driver that accepts every call and hands out fresh handles `1, 2, ...`. -/
def countingDriver : Driver :=
  { vkCreateShaderModule := fun log _ => (VK_SUCCESS, log.length + 1) }

/-- A driver that checks that the code size is a multiple of four and answers
`VK_ERROR_INVALID_SHADER_NV` (`-1000012000`) otherwise. -/
def strictDriver : Driver :=
  { vkCreateShaderModule := fun log call =>
      if call.pCreateInfo.codeSize % 4 = 0 then (VK_SUCCESS, log.length + 1)
      else (-1000012000, 0) }

/-- A driver that accepts every call, whatever the code size, and always hands
out the handle `42`. -/
def lenientDriver : Driver :=
  { vkCreateShaderModule := fun _ _ => (VK_SUCCESS, 42) }

/-! ## `Device` -/

/-- The type `VkQueue`: an opaque handle. -/
abbrev VkQueue := Nat

/-- The pointer type `Instance*`: a non-owning reference, modelled by its address. -/
abbrev InstanceRef := Nat

/-- Modelled from the spec: the enumeration `QueueFlags`, declared in
`QueueFlags.h`.  A capability flag keys one slot of the queue array, so it is
modelled by the index of that slot. -/
abbrev QueueFlags := Nat

/-- The data members of `class Device` (`Device.h`, lines 31-33).  `queues` is
the `std::array<VkQueue, sizeof(QueueFlags)>`; its length is fixed when the
`Device` is constructed. -/
structure Device where
  instance_ : InstanceRef
  vkDevice : VkDevice
  queues : List VkQueue
deriving DecidableEq

/-- Modelled from the spec: the body of `Device::GetInstance` (in `Device.cpp`),
which "returns the non-owning back-reference to the creating `Instance`".  The
member function is not `const`, so the `Device` after the call is returned too. -/
def Device.GetInstance (d : Device) : InstanceRef × Device :=
  (d.instance_, d)

/-- Modelled from the spec: the body of `Device::GetVkDevice` (in `Device.cpp`),
which "returns the raw logical-device handle". -/
def Device.GetVkDevice (d : Device) : VkDevice × Device :=
  (d.vkDevice, d)

/-- Modelled from the spec: the body of `Device::GetQueue` (in `Device.cpp`),
which "returns the queue handle at the slot for capability `flag`"; `none` is
the out-of-range condition of a flag without a slot. -/
def Device.GetQueue (d : Device) (flag : QueueFlags) : Option VkQueue × Device :=
  (d.queues[flag]?, d)

/-- Modelled from the spec: the body of `Device::GetQueueIndex` (in
`Device.cpp`), which "returns the queue-family index associated with `flag`".
The association is not a data member of `Device`; it is the parameter
`familyIndex`, fixed when the `Device` is constructed. -/
def Device.GetQueueIndex (familyIndex : QueueFlags → Nat) (d : Device) (flag : QueueFlags) :
    Nat × Device :=
  (familyIndex flag, d)

/-- One call of an accessor of `Device`. -/
inductive AccessorCall where
  | getInstance
  | getVkDevice
  | getQueue (flag : QueueFlags)
  | getQueueIndex (flag : QueueFlags)
deriving DecidableEq

/-- The `Device` after one accessor call. -/
def Device.afterCall (familyIndex : QueueFlags → Nat) (d : Device) : AccessorCall → Device
  | AccessorCall.getInstance => d.GetInstance.2
  | AccessorCall.getVkDevice => d.GetVkDevice.2
  | AccessorCall.getQueue flag => (d.GetQueue flag).2
  | AccessorCall.getQueueIndex flag => (Device.GetQueueIndex familyIndex d flag).2

/-- The `Device` after a sequence of accessor calls, made one after the other. -/
def Device.afterCalls (familyIndex : QueueFlags → Nat) (d : Device)
    (calls : List AccessorCall) : Device :=
  calls.foldl (Device.afterCall familyIndex) d

/-- A device with one queue slot (flag `0`, graphics) whose queue handle is `77`. -/
def sampleDevice : Device := { instance_ := 5, vkDevice := 9, queues := [77] }

/-! ## Lemmas on the file reader -/

theorem readFile_of_closed (fs : FileSystem) (filename : String) (h : fs filename = none) :
    readFile fs filename = Except.error "Failed to open file" := by
  simp [readFile, IfStream.ifstream, h]

/-- The driver call that `ShaderModule::Create(code, logicalDevice)` makes. -/
theorem Create_eq (drv : Driver) (code : List Byte) (dev : VkDevice)
    (log : List CreateShaderModuleCall) :
    ShaderModule.Create drv code dev log =
      (if (drv.vkCreateShaderModule log
            ⟨dev, ⟨16, none, 0, code.length, some code⟩, none⟩).1 ≠ VK_SUCCESS
        then Except.error "Failed to create shader module"
        else Except.ok (drv.vkCreateShaderModule log
            ⟨dev, ⟨16, none, 0, code.length, some code⟩, none⟩).2,
       log ++ [⟨dev, ⟨16, none, 0, code.length, some code⟩, none⟩]) := by
  unfold ShaderModule.Create
  simp only [VkShaderModuleCreateInfo.zeroed, VK_STRUCTURE_TYPE_SHADER_MODULE_CREATE_INFO]
  split_ifs <;> rfl

/-- Claim C5: the creation-info handed to the driver by
`ShaderModule::Create(bytes, device)` has the shader-module-create-info
structure type (16), a code size equal to the number of bytes, a code pointer
to exactly those bytes, every other field (`pNext`, `flags`) zero or null; the
device is forwarded unchanged and the allocator is null. -/
theorem Create_createInfo (drv : Driver) (code : List Byte) (dev : VkDevice)
    (log : List CreateShaderModuleCall) :
    (ShaderModule.Create drv code dev log).2 =
      log ++ [{ device := dev
                pCreateInfo :=
                  { sType := VK_STRUCTURE_TYPE_SHADER_MODULE_CREATE_INFO
                    pNext := none
                    flags := 0
                    codeSize := code.length
                    pCode := some code }
                pAllocator := none }] := by
  rw [Create_eq]
  rfl

/-- Claim C3: `ShaderModule::Create(bytes, device)` raises "Failed to create
shader module" if and only if the status of the driver call is not
`VK_SUCCESS`; when the status is `VK_SUCCESS` it returns the handle the driver
produced. -/
theorem Create_error_iff (drv : Driver) (code : List Byte) (dev : VkDevice)
    (log : List CreateShaderModuleCall) :
    ((ShaderModule.Create drv code dev log).1 = Except.error "Failed to create shader module" ↔
      (drv.vkCreateShaderModule log
        ⟨dev, ⟨VK_STRUCTURE_TYPE_SHADER_MODULE_CREATE_INFO, none, 0, code.length, some code⟩,
          none⟩).1 ≠ VK_SUCCESS) ∧
    ((drv.vkCreateShaderModule log
        ⟨dev, ⟨VK_STRUCTURE_TYPE_SHADER_MODULE_CREATE_INFO, none, 0, code.length, some code⟩,
          none⟩).1 = VK_SUCCESS →
      (ShaderModule.Create drv code dev log).1 =
        Except.ok (drv.vkCreateShaderModule log
          ⟨dev, ⟨VK_STRUCTURE_TYPE_SHADER_MODULE_CREATE_INFO, none, 0, code.length, some code⟩,
            none⟩).2) := by
  rw [Create_eq]
  simp only [VK_STRUCTURE_TYPE_SHADER_MODULE_CREATE_INFO]
  constructor
  · constructor
    · intro h
      by_contra hne
      simp [hne] at h
    · intro h
      simp [h]
  · intro h
    simp [h]

/-- Witness of claim C3 on a driver that rejects a three-byte code. -/
theorem Create_error_iff_witness :
    ((ShaderModule.Create strictDriver [3, 2, 35] 1 []).1 =
        Except.error "Failed to create shader module" ↔
      (strictDriver.vkCreateShaderModule []
        ⟨1, ⟨VK_STRUCTURE_TYPE_SHADER_MODULE_CREATE_INFO, none, 0, 3, some [3, 2, 35]⟩,
          none⟩).1 ≠ VK_SUCCESS) ∧
    ((strictDriver.vkCreateShaderModule []
        ⟨1, ⟨VK_STRUCTURE_TYPE_SHADER_MODULE_CREATE_INFO, none, 0, 3, some [3, 2, 35]⟩,
          none⟩).1 = VK_SUCCESS →
      (ShaderModule.Create strictDriver [3, 2, 35] 1 []).1 =
        Except.ok (strictDriver.vkCreateShaderModule []
          ⟨1, ⟨VK_STRUCTURE_TYPE_SHADER_MODULE_CREATE_INFO, none, 0, 3, some [3, 2, 35]⟩,
            none⟩).2) :=
  Create_error_iff strictDriver [3, 2, 35] 1 []

/-- Counterexample to claim C4: the three bytes `[3, 2, 35]` (a length that is
not a multiple of 4) given to a driver that answers `VK_SUCCESS` yield the
handle `42`, and no error is raised: the code checks no length itself. -/
theorem lenientDriver_accepts_three_bytes :
    ([3, 2, 35] : List Byte).length % 4 ≠ 0 ∧
    ShaderModule.Create lenientDriver [3, 2, 35] 1 [] =
      (Except.ok 42, [⟨1, ⟨16, none, 0, 3, some [3, 2, 35]⟩, none⟩]) ∧
    ¬ ∃ msg, (ShaderModule.Create lenientDriver [3, 2, 35] 1 []).1 = Except.error msg := by
  refine ⟨by decide, rfl, ?_⟩
  rintro ⟨msg, h⟩
  have h2 : (ShaderModule.Create lenientDriver [3, 2, 35] 1 []).1 = Except.ok 42 := rfl
  rw [h2] at h
  cases h

/-- Claim C4, amended: for a byte sequence whose length is not a multiple of 4
the code makes the driver call all the same, with that length as the code size;
it raises "Failed to create shader module" and returns no handle when the
driver answers a status other than `VK_SUCCESS`, and returns the driver's
handle when the driver answers `VK_SUCCESS`. -/
theorem Create_odd_length (drv : Driver) (code : List Byte) (dev : VkDevice)
    (log : List CreateShaderModuleCall) (hlen : code.length % 4 ≠ 0) :
    ∃ call : CreateShaderModuleCall,
      (ShaderModule.Create drv code dev log).2 = log ++ [call] ∧
      call.pCreateInfo.codeSize = code.length ∧
      call.pCreateInfo.codeSize % 4 ≠ 0 ∧
      ((drv.vkCreateShaderModule log call).1 ≠ VK_SUCCESS →
        (ShaderModule.Create drv code dev log).1 =
          Except.error "Failed to create shader module") ∧
      ((drv.vkCreateShaderModule log call).1 = VK_SUCCESS →
        (ShaderModule.Create drv code dev log).1 =
          Except.ok (drv.vkCreateShaderModule log call).2) := by
  refine ⟨⟨dev, ⟨16, none, 0, code.length, some code⟩, none⟩, ?_, rfl, hlen, ?_, ?_⟩
  · rw [Create_eq]
  · intro h
    rw [Create_eq]
    simp [h]
  · intro h
    rw [Create_eq]
    simp [h]

/-- Witness of the amended claim C4: three bytes on the driver that rejects a
code size that is not a multiple of 4. -/
theorem Create_odd_length_witness :
    ([3, 2, 35] : List Byte).length % 4 ≠ 0 ∧
    ∃ call : CreateShaderModuleCall,
      (ShaderModule.Create strictDriver [3, 2, 35] 1 []).2 = [] ++ [call] ∧
      call.pCreateInfo.codeSize = ([3, 2, 35] : List Byte).length ∧
      call.pCreateInfo.codeSize % 4 ≠ 0 ∧
      ((strictDriver.vkCreateShaderModule [] call).1 ≠ VK_SUCCESS →
        (ShaderModule.Create strictDriver [3, 2, 35] 1 []).1 =
          Except.error "Failed to create shader module") ∧
      ((strictDriver.vkCreateShaderModule [] call).1 = VK_SUCCESS →
        (ShaderModule.Create strictDriver [3, 2, 35] 1 []).1 =
          Except.ok (strictDriver.vkCreateShaderModule [] call).2) :=
  ⟨by decide, Create_odd_length strictDriver [3, 2, 35] 1 [] (by decide)⟩

/-- Claim C7: every `ShaderModule::Create(bytes, device)` makes exactly one
driver call, whether the driver accepts or rejects; two successive calls with
the same bytes make two driver calls, and each returns the handle the driver
produced for its own call. -/
theorem Create_one_call_each (drv : Driver) (code : List Byte) (dev : VkDevice)
    (log : List CreateShaderModuleCall) :
    (ShaderModule.Create drv code dev log).2.length = log.length + 1 ∧
    (ShaderModule.Create drv code dev (ShaderModule.Create drv code dev log).2).2 =
      log ++ [⟨dev, ⟨16, none, 0, code.length, some code⟩, none⟩,
              ⟨dev, ⟨16, none, 0, code.length, some code⟩, none⟩] ∧
    (ShaderModule.Create drv code dev (ShaderModule.Create drv code dev log).2).2.length =
      log.length + 2 ∧
    (∀ h1 : VkShaderModule,
      drv.vkCreateShaderModule log ⟨dev, ⟨16, none, 0, code.length, some code⟩, none⟩ =
        (VK_SUCCESS, h1) →
      (ShaderModule.Create drv code dev log).1 = Except.ok h1) ∧
    (∀ h2 : VkShaderModule,
      drv.vkCreateShaderModule (log ++ [⟨dev, ⟨16, none, 0, code.length, some code⟩, none⟩])
          ⟨dev, ⟨16, none, 0, code.length, some code⟩, none⟩ = (VK_SUCCESS, h2) →
      (ShaderModule.Create drv code dev (ShaderModule.Create drv code dev log).2).1 =
        Except.ok h2) := by
  refine ⟨?_, ?_, ?_, ?_, ?_⟩
  · rw [Create_eq]
    simp
  · rw [Create_eq, Create_eq]
    simp
  · rw [Create_eq, Create_eq]
    simp
  · intro h1 h
    rw [Create_eq, h]
    simp
  · intro h2 h
    rw [Create_eq drv code dev log]
    simp only []
    rw [Create_eq, h]
    simp

/-- Witness of claim C7: on the driver that hands out fresh handles two
successive calls with the same four bytes return the handles `1` and `2`. -/
theorem Create_one_call_each_witness :
    (ShaderModule.Create countingDriver [3, 2, 35, 7] 1 []).1 = Except.ok 1 ∧
    (ShaderModule.Create countingDriver [3, 2, 35, 7] 1
      (ShaderModule.Create countingDriver [3, 2, 35, 7] 1 []).2).1 = Except.ok 2 :=
  ⟨(Create_one_call_each countingDriver [3, 2, 35, 7] 1 []).2.2.2.1 1 rfl,
   (Create_one_call_each countingDriver [3, 2, 35, 7] 1 []).2.2.2.2 2 rfl⟩

/-! ## `ShaderModule::Create` on a file name -/

theorem CreateFile_of_closed (drv : Driver) (fs : FileSystem) (filename : String)
    (dev : VkDevice) (log : List CreateShaderModuleCall) (h : fs filename = none) :
    ShaderModule.CreateFile drv fs filename dev log =
      (Except.error "Failed to open file", log) := by
  simp [ShaderModule.CreateFile, readFile_of_closed fs filename h]

/-- Claim C1: when the named file cannot be opened,
`ShaderModule::Create(filename, device)` raises "Failed to open file" and makes
no driver call: the log of driver calls is the one it started from. -/
theorem CreateFile_open_failure (drv : Driver) (fs : FileSystem) (filename : String)
    (dev : VkDevice) (log : List CreateShaderModuleCall) (h : fs filename = none) :
    (ShaderModule.CreateFile drv fs filename dev log).1 = Except.error "Failed to open file" ∧
    (ShaderModule.CreateFile drv fs filename dev log).2 = log ∧
    (ShaderModule.CreateFile drv fs filename dev log).2.length = log.length := by
  rw [CreateFile_of_closed drv fs filename dev log h]
  simp

/-- Witness of claim C1: `missing.spv` is not in the sample file system. -/
theorem CreateFile_open_failure_witness :
    sampleFs "missing.spv" = none ∧
    (ShaderModule.CreateFile countingDriver sampleFs "missing.spv" 1 []).1 =
      Except.error "Failed to open file" ∧
    (ShaderModule.CreateFile countingDriver sampleFs "missing.spv" 1 []).2 = [] ∧
    (ShaderModule.CreateFile countingDriver sampleFs "missing.spv" 1 []).2.length =
      ([] : List CreateShaderModuleCall).length :=
  ⟨rfl, CreateFile_open_failure countingDriver sampleFs "missing.spv" 1 [] rfl⟩

theorem Device.afterCall_eq (familyIndex : QueueFlags → Nat) (d : Device) (c : AccessorCall) :
    Device.afterCall familyIndex d c = d := by
  cases c <;> rfl

theorem Device.afterCalls_eq (familyIndex : QueueFlags → Nat) (d : Device)
    (calls : List AccessorCall) : Device.afterCalls familyIndex d calls = d := by
  induction calls with
  | nil => rfl
  | cons c cs ih =>
    unfold Device.afterCalls at ih ⊢
    rw [List.foldl_cons, Device.afterCall_eq]
    exact ih

/-- Claim C9: for a flag that has a slot in the queue array, after any sequence
of calls of `GetInstance`, `GetVkDevice`, `GetQueue` and `GetQueueIndex` the
fields `instance`, `vkDevice` and `queues` of the `Device` are what they were,
and `GetQueue(f)` and `GetQueueIndex(f)` return what they returned before. -/
theorem Device.accessors_stable (familyIndex : QueueFlags → Nat) (d : Device)
    (f : QueueFlags) (hf : f < d.queues.length) (calls : List AccessorCall) :
    (Device.afterCalls familyIndex d calls).instance_ = d.instance_ ∧
    (Device.afterCalls familyIndex d calls).vkDevice = d.vkDevice ∧
    (Device.afterCalls familyIndex d calls).queues = d.queues ∧
    ((Device.afterCalls familyIndex d calls).GetQueue f).1 = (d.GetQueue f).1 ∧
    (Device.GetQueueIndex familyIndex (Device.afterCalls familyIndex d calls) f).1 =
      (Device.GetQueueIndex familyIndex d f).1 ∧
    (d.GetQueue f).1 = some (d.queues.get ⟨f, hf⟩) := by
  rw [Device.afterCalls_eq]
  refine ⟨rfl, rfl, rfl, rfl, rfl, ?_⟩
  simp [Device.GetQueue, List.getElem?_eq_getElem hf]

/-- Witness of claim C9: the sample device, flag `0`, four accessor calls. -/
theorem Device.accessors_stable_witness :
    (0 : QueueFlags) < sampleDevice.queues.length ∧
    ((Device.afterCalls (fun _ => 0) sampleDevice
      [AccessorCall.getQueue 0, AccessorCall.getInstance, AccessorCall.getQueueIndex 0,
        AccessorCall.getVkDevice]).GetQueue 0).1 = (sampleDevice.GetQueue 0).1 ∧
    (sampleDevice.GetQueue 0).1 = some 77 :=
  ⟨by decide,
   (Device.accessors_stable (fun _ => 0) sampleDevice 0 (by decide)
      [AccessorCall.getQueue 0, AccessorCall.getInstance, AccessorCall.getQueueIndex 0,
        AccessorCall.getVkDevice]).2.2.2.1,
   rfl⟩

end VulkanGrass
